import Mathlib

/-!
# Verification of the hello-naz-app page controller (src/script.js)

Shallow embedding of the single-file page controller. The DOM-facing state
that the script mutates (the current theme index, the animating flag, the
three page-global color style variables, the ripple/particle/notification
entities, the typewriter title state, ...) is collected in `AppState`, and
every handler of the script becomes a function `AppState → AppState`
(parameterised by the data the browser event carries). Timer callbacks
(the color-cycle interval tick, the animating-flag release timeout, the
typewriter interval tick, ...) are separate operations of the alphabet
`Op`, reflecting the run-to-completion event-loop semantics of the source.

Pixel coordinates are rationals; a JavaScript `undefined` coordinate (as in
the keyboard-synthesized click event, which carries no `clientX`/`clientY`)
is `none`, and arithmetic on it (`undefined - x`, yielding `NaN`) stays
`none`: a non-numeric value, which as an inline CSS length is invalid.
-/

namespace HelloNaz

/-- A theme: an ordered triple of color values (src/script.js lines 16-22). -/
structure Theme where
  primary : String
  secondary : String
  accent : String
deriving DecidableEq, Repr

/-- The fixed five-theme palette `THEMES` (src/script.js lines 16-22). -/
def THEMES : List Theme :=
  [ ⟨"#667eea", "#764ba2", "#f093fb"⟩,
    ⟨"#4facfe", "#00f2fe", "#43e97b"⟩,
    ⟨"#fa709a", "#fee140", "#a8edea"⟩,
    ⟨"#ffecd2", "#fcb69f", "#667eea"⟩,
    ⟨"#a8edea", "#fed6e3", "#ff9a9e"⟩ ]

/-- Fallback theme for out-of-range palette access (never reached: every
access is at an index reduced modulo the palette length). -/
def defaultTheme : Theme := ⟨"", "", ""⟩

/-- A bounding client rect of the action button, as read by
`getBoundingClientRect()` in `createRippleEffect`. -/
structure Rect where
  left : Rat
  top : Rat
  width : Rat
  height : Rat
deriving DecidableEq, Repr

/-- The data of a (real or synthesized) activation event reaching
`handleInteractiveClick`: pointer coordinates, which are `none`
(JavaScript `undefined`) on the keyboard-synthesized event of
`handleKeydown`, and the current rect of the `currentTarget` button. -/
structure ClickEvent where
  clientX : Option Rat
  clientY : Option Rat
  rect : Rect
deriving DecidableEq, Repr

/-- The data of a keydown event reaching `handleKeydown`: the key string and
whether `event.target` is the cached interactive button (which requires the
button to have been found: `event.target === elements.interactiveBtn` is
false when `elements.interactiveBtn` is null). `btnRect` is the button's
rect at that moment, used when the click handler is invoked with the
synthesized event. -/
structure KeyEvent where
  key : String
  targetIsBtn : Bool
  btnRect : Rect
deriving DecidableEq, Repr

/-- A ripple element as styled by `createRippleEffect`: its size and the
`left`/`top` inline coordinates, `none` meaning the computed value was NaN
(so the inline declaration is invalid and the element keeps the stylesheet
default position). -/
structure Ripple where
  size : Rat
  left : Option Rat
  top : Option Rat
deriving DecidableEq, Repr

/-- The mutable page state owned by the controller. Element-cache fields
record whether the optional elements were found by `cacheElements`; the
typewriter fields model the title element's captured full text
(`titleFull`), its current `textContent` (`titleShown`), the interval's
closure variable `index` (`twIndex`), whether the interval is still live
(`twRunning`), and the `typewriter-complete` class (`twComplete`). -/
structure AppState where
  currentThemeIndex : Nat
  isAnimating : Bool
  containerCached : Bool
  btnCached : Bool
  bodyCached : Bool
  particlesCached : Bool
  docHidden : Bool
  primaryVar : String
  secondaryVar : String
  accentVar : String
  ripples : List Ripple
  notifications : List String
  containerTranslate : Option (Rat × Rat)
  buttonScaledDown : Bool
  playStatePaused : Bool
  keyboardNav : Bool
  particlePositions : List (Rat × Rat)
  titleFull : List Char
  titleShown : List Char
  twIndex : Nat
  twRunning : Bool
  twComplete : Bool
deriving DecidableEq, Repr

/-- `applyTheme` (src/script.js lines 243-249): returns early when the body
element is not cached, otherwise writes the theme's three color values into
the three page-global style variables. -/
def applyTheme (theme : Theme) (s : AppState) : AppState :=
  if s.bodyCached then
    { s with primaryVar := theme.primary,
             secondaryVar := theme.secondary,
             accentVar := theme.accent }
  else s

/-- `cycleTheme` (src/script.js lines 238-241): advance the index by one
modulo the palette length, then apply the palette entry at the new index. -/
def cycleTheme (s : AppState) : AppState :=
  let s1 := { s with currentThemeIndex := (s.currentThemeIndex + 1) % THEMES.length }
  applyTheme (THEMES.getD s1.currentThemeIndex defaultTheme) s1

/-- JavaScript subtraction where the left operand may be `undefined`:
`undefined - b` is NaN, modelled as `none`. -/
def jsSub (a : Option Rat) (b : Rat) : Option Rat := a.map (fun q => q - b)

/-- `createRippleEffect` (src/script.js lines 292-314): size is the larger
rect dimension; `left`/`top` are `clientX - rect.left - size/2` and
`clientY - rect.top - size/2` (NaN, i.e. `none`, when the event carries no
pointer coordinates); the ripple is appended to the button. -/
def createRippleEffect (ev : ClickEvent) (s : AppState) : AppState :=
  let size := max ev.rect.width ev.rect.height
  let x := jsSub (jsSub ev.clientX ev.rect.left) (size / 2)
  let y := jsSub (jsSub ev.clientY ev.rect.top) (size / 2)
  { s with ripples := s.ripples ++ [⟨size, x, y⟩] }

/-- `showNotification` (src/script.js lines 317-334): creates and appends an
independent notification entity. -/
def showNotification (message : String) (s : AppState) : AppState :=
  { s with notifications := s.notifications ++ [message] }

/-- `handleInteractiveClick` (src/script.js lines 147-173): guarded by the
animating flag; otherwise sets the flag, scales the button down, cycles the
theme, creates a ripple and shows a notification. The flag release and the
button scale-back are later timeouts (`Op.animTimeoutEnd`,
`Op.buttonScaleEnd`). -/
def handleInteractiveClick (ev : ClickEvent) (s : AppState) : AppState :=
  if s.isAnimating then s
  else
    let s1 := { s with isAnimating := true, buttonScaledDown := true }
    let s2 := cycleTheme s1
    let s3 := createRippleEffect ev s2
    showNotification "Theme changed! ✨" s3

/-- `handleKeydown` (src/script.js lines 176-191): Space/Enter on the
interactive button invokes the click handler with a synthesized event that
carries no pointer coordinates; Escape resets the index to 0 and applies
the first palette theme; other keys do nothing here. -/
def handleKeydown (ev : KeyEvent) (s : AppState) : AppState :=
  if ev.key = " " ∨ ev.key = "Enter" then
    if ev.targetIsBtn && s.btnCached then
      handleInteractiveClick ⟨none, none, ev.btnRect⟩ s
    else s
  else if ev.key = "Escape" then
    applyTheme (THEMES.getD 0 defaultTheme) { s with currentThemeIndex := 0 }
  else s

/-- The focus-management keydown listener added by `setupAccessibility`
(src/script.js lines 353-357): Tab marks keyboard navigation. -/
def accessibilityKeydown (ev : KeyEvent) (s : AppState) : AppState :=
  if ev.key = "Tab" then { s with keyboardNav := true } else s

/-- A document keydown dispatch: both document-level keydown listeners fire
in registration order (`handleKeydown` from `setupEventListeners`, then the
Tab listener from `setupAccessibility`). -/
def keydownDispatch (ev : KeyEvent) (s : AppState) : AppState :=
  accessibilityKeydown ev (handleKeydown ev s)

/-- `handleMouseMove` (src/script.js lines 202-216): parallax translate of
the container from pointer position relative to the viewport center. -/
def handleMouseMove (cx cy vw vh : Rat) (s : AppState) : AppState :=
  if s.containerCached then
    let xPercent := (cx / vw - 1/2) * 2
    let yPercent := (cy / vh - 1/2) * 2
    { s with containerTranslate := some (xPercent * 10, yPercent * 10) }
  else s

/-- `updateParticles` (src/script.js lines 282-289): every existing particle
is repositioned in place with fresh random percentages; the fresh random
draws are the `newPos` argument. -/
def updateParticles (newPos : List (Rat × Rat)) (s : AppState) : AppState :=
  { s with particlePositions :=
      (List.range s.particlePositions.length).map (fun i => newPos.getD i (0, 0)) }

/-- `handleResize` (src/script.js lines 194-199): reposition particles when
the particle host was found. -/
def handleResize (newPos : List (Rat × Rat)) (s : AppState) : AppState :=
  if s.particlesCached then updateParticles newPos s else s

/-- `handleVisibilityChange` (src/script.js lines 219-227): records the new
`document.hidden` and pauses or resumes the body's animations accordingly. -/
def handleVisibilityChange (hidden : Bool) (s : AppState) : AppState :=
  { s with docHidden := hidden, playStatePaused := hidden }

/-- One tick of the color-cycle interval started by `startColorCycle`
(src/script.js lines 230-236): cycles only when the page is visible and no
interactive animation is in progress. -/
def colorCycleTick (s : AppState) : AppState :=
  if !s.docHidden && !s.isAnimating then cycleTheme s else s

/-- JavaScript single-character string indexing as used by
`text[index]` followed by `+=`: in range it contributes that character;
out of range it is `undefined`, and `str += undefined` appends the string
"undefined". -/
def jsCharAt (text : List Char) (i : Nat) : List Char :=
  match text.get? i with
  | some c => [c]
  | none => "undefined".toList

/-- `typewriterEffect` setup (src/script.js lines 112-118): captures the
title's text (`titleFull` already holds it), clears the displayed text and
starts the interval at index 0. -/
def typewriterEffect (s : AppState) : AppState :=
  { s with titleShown := [], twIndex := 0, twRunning := true }

/-- One tick of the typewriter interval (src/script.js lines 120-128):
appends `text[index]`, increments the index, and when the new index has
reached the text length clears the interval and adds the
`typewriter-complete` class. -/
def typewriterTick (s : AppState) : AppState :=
  if s.twRunning then
    let shown := s.titleShown ++ jsCharAt s.titleFull s.twIndex
    let idx := s.twIndex + 1
    if s.titleFull.length ≤ idx then
      { s with titleShown := shown, twIndex := idx,
               twRunning := false, twComplete := true }
    else
      { s with titleShown := shown, twIndex := idx }
  else s

/-- The exposed `HelloNazApp.applyTheme` (src/script.js line 393): forwards
the given theme triple to the internal `applyTheme`. -/
def publicApplyTheme (theme : Theme) (s : AppState) : AppState :=
  applyTheme theme s

/-- The alphabet of operations that can run on the shared state after a
successful initialization: browser events, timer callbacks and the exposed
`HelloNazApp` API. -/
inductive Op where
  | click (ev : ClickEvent)
  | keydown (ev : KeyEvent)
  | mousedown
  | colorTick
  | animTimeoutEnd
  | buttonScaleEnd
  | rippleExpire
  | notifExpire
  | mousemoveFire (cx cy vw vh : Rat)
  | resizeFire (newPos : List (Rat × Rat))
  | visibility (hidden : Bool)
  | twTick
  | publicCycle
  | publicApply (t : Theme)
  | publicNotify (m : String)
deriving DecidableEq, Repr

/-- The effect of one operation on the state. Timeout-driven removals
(ripple after 600ms, notification after its lifecycle) drop the oldest
entity, since all such timeouts use one fixed delay and hence expire in
creation order. -/
def step (op : Op) (s : AppState) : AppState :=
  match op with
  | .click ev => handleInteractiveClick ev s
  | .keydown ev => keydownDispatch ev s
  | .mousedown => { s with keyboardNav := false }
  | .colorTick => colorCycleTick s
  | .animTimeoutEnd => { s with isAnimating := false }
  | .buttonScaleEnd => { s with buttonScaledDown := false }
  | .rippleExpire => { s with ripples := s.ripples.tail }
  | .notifExpire => { s with notifications := s.notifications.tail }
  | .mousemoveFire cx cy vw vh => handleMouseMove cx cy vw vh s
  | .resizeFire newPos => handleResize newPos s
  | .visibility hidden => handleVisibilityChange hidden s
  | .twTick => typewriterTick s
  | .publicCycle => cycleTheme s
  | .publicApply t => publicApplyTheme t s
  | .publicNotify m => showNotification m s

/-- Run a sequence of operations left to right. -/
def run (ops : List Op) (s : AppState) : AppState :=
  ops.foldl (fun t op => step op t) s

/-- A concrete state as left by a successful `init` on a fully populated
page: index 0, flag clear, all elements cached, page visible; the inline
style variables start unset (the stylesheet defaults apply). -/
def initialState : AppState where
  currentThemeIndex := 0
  isAnimating := false
  containerCached := true
  btnCached := true
  bodyCached := true
  particlesCached := true
  docHidden := false
  primaryVar := ""
  secondaryVar := ""
  accentVar := ""
  ripples := []
  notifications := []
  containerTranslate := none
  buttonScaledDown := false
  playStatePaused := false
  keyboardNav := false
  particlePositions := []
  titleFull := []
  titleShown := []
  twIndex := 0
  twRunning := false
  twComplete := false

/-- The typewriter's state right after `typewriterEffect` was entered for a
title whose text is `text`. -/
def twStart (text : List Char) : AppState :=
  typewriterEffect { initialState with titleFull := text }

/-- Whether the typewriter interval has been cleared after `n` ticks. -/
def twDone (text : List Char) (n : Nat) : Bool :=
  !(typewriterTick^[n] (twStart text)).twRunning

/-- The current values of the three page-global color style variables. -/
def styleVars (s : AppState) : String × String × String :=
  (s.primaryVar, s.secondaryVar, s.accentVar)

/-- The triple of color values a theme carries. -/
def themeTriple (t : Theme) : String × String × String :=
  (t.primary, t.secondary, t.accent)

/-- The palette entry a `cycleTheme` call from state `s` applies. -/
def nextTheme (s : AppState) : Theme :=
  THEMES.getD ((s.currentThemeIndex + 1) % THEMES.length) defaultTheme

/-- The theme, if any, that executing `op` from state `s` passes to
`applyTheme`; `none` when the operation makes no `applyTheme` call (read
off the call sites: the click handler and the color tick cycle when their
guards pass, Escape applies the first palette entry, and the two exposed
API operations cycle or forward a caller theme). -/
def themeAppliedBy (op : Op) (s : AppState) : Option Theme :=
  match op with
  | .click _ => if s.isAnimating then none else some (nextTheme s)
  | .keydown ev =>
      if ev.key = " " ∨ ev.key = "Enter" then
        if ev.targetIsBtn && s.btnCached then
          if s.isAnimating then none else some (nextTheme s)
        else none
      else if ev.key = "Escape" then some (THEMES.getD 0 defaultTheme)
      else none
  | .colorTick =>
      if !s.docHidden && !s.isAnimating then some (nextTheme s) else none
  | .publicCycle => some (nextTheme s)
  | .publicApply t => some t
  | _ => none

/-- Which page elements the host document provides (found by
`document.querySelector`); the body always exists in a loaded document. -/
structure Env where
  container : Bool
  title : Bool
  subtitle : Bool
  interactiveBtn : Bool
  particlesHost : Bool
deriving DecidableEq, Repr

/-- What `init` observably did: whether the caught error was logged, which
listeners `setupEventListeners` registered, whether the entrance animations
and the periodic color cycle started, and how many particles were created. -/
structure InitOutcome where
  errorLogged : Bool
  clickListener : Bool
  keydownListener : Bool
  resizeListener : Bool
  mousemoveListener : Bool
  visibilityListener : Bool
  entranceStarted : Bool
  typewriterScheduled : Bool
  colorCycleStarted : Bool
  particlesCreated : Nat
  accessibilitySetup : Bool
deriving DecidableEq, Repr

/-- `cacheElements` succeeds iff both essential elements were found
(src/script.js lines 55-58). -/
def cacheOk (env : Env) : Bool := env.container && env.title

/-- `CONFIG.particleCount` (src/script.js line 12). -/
def particleCount : Nat := 50

/-- `init` (src/script.js lines 31-42): `cacheElements` runs first and
throws when an essential element is missing; the `catch` then logs the
error and none of the later setup steps run. On success, every listener is
registered (the click listener only when the button exists), the entrance
animations and the typewriter are scheduled, the color cycle starts, and
the particle system creates `particleCount` particles when the host
element exists. -/
def init (env : Env) : InitOutcome :=
  if cacheOk env then
    { errorLogged := false
      clickListener := env.interactiveBtn
      keydownListener := true
      resizeListener := true
      mousemoveListener := true
      visibilityListener := true
      entranceStarted := true
      typewriterScheduled := true
      colorCycleStarted := true
      particlesCreated := if env.particlesHost then particleCount else 0
      accessibilitySetup := true }
  else
    { errorLogged := true
      clickListener := false
      keydownListener := false
      resizeListener := false
      mousemoveListener := false
      visibilityListener := false
      entranceStarted := false
      typewriterScheduled := false
      colorCycleStarted := false
      particlesCreated := 0
      accessibilitySetup := false }

/-- The hidden state of one `debounce(func, wait)` closure (src/script.js
lines 365-375), together with the observable list of invocations of the
wrapped function: `pending` is the scheduled timeout's argument pack, if a
timeout is live. -/
structure DebounceState (α : Type) where
  pending : Option α
  fired : List α
deriving Repr

/-- One call of the debounced function (the returned `executedFunction`):
clears any pending timeout and schedules a new one carrying these
arguments. -/
def debounceCall {α : Type} (a : α) (s : DebounceState α) : DebounceState α :=
  { pending := some a, fired := s.fired }

/-- The pending timeout elapsing: `later` runs, invoking the wrapped
function with the stored arguments; nothing happens when no timeout is
pending. -/
def debounceElapse {α : Type} (s : DebounceState α) : DebounceState α :=
  match s.pending with
  | some a => { pending := none, fired := s.fired ++ [a] }
  | none => s

/-- A burst of calls, each arriving before the previously scheduled delay
elapses, so each call's `clearTimeout` cancels the previous pending
invocation. -/
def debounceBurst {α : Type} (as : List α) (s : DebounceState α) : DebounceState α :=
  as.foldl (fun t a => debounceCall a t) s

/-! ## Basic facts about the operations -/

theorem THEMES_length : THEMES.length = 5 := rfl

@[simp] theorem applyTheme_currentThemeIndex (t : Theme) (s : AppState) :
    (applyTheme t s).currentThemeIndex = s.currentThemeIndex := by
  unfold applyTheme; split <;> rfl

@[simp] theorem applyTheme_isAnimating (t : Theme) (s : AppState) :
    (applyTheme t s).isAnimating = s.isAnimating := by
  unfold applyTheme; split <;> rfl

@[simp] theorem applyTheme_ripples (t : Theme) (s : AppState) :
    (applyTheme t s).ripples = s.ripples := by
  unfold applyTheme; split <;> rfl

@[simp] theorem applyTheme_bodyCached (t : Theme) (s : AppState) :
    (applyTheme t s).bodyCached = s.bodyCached := by
  unfold applyTheme; split <;> rfl

theorem applyTheme_styleVars_of_bodyCached (t : Theme) (s : AppState)
    (h : s.bodyCached = true) :
    styleVars (applyTheme t s) = themeTriple t := by
  simp [applyTheme, h, styleVars, themeTriple]

@[simp] theorem cycleTheme_currentThemeIndex (s : AppState) :
    (cycleTheme s).currentThemeIndex = (s.currentThemeIndex + 1) % 5 := by
  simp [cycleTheme, THEMES_length]

@[simp] theorem cycleTheme_isAnimating (s : AppState) :
    (cycleTheme s).isAnimating = s.isAnimating := by
  simp [cycleTheme]

@[simp] theorem cycleTheme_bodyCached (s : AppState) :
    (cycleTheme s).bodyCached = s.bodyCached := by
  simp [cycleTheme]

@[simp] theorem createRippleEffect_currentThemeIndex (ev : ClickEvent) (s : AppState) :
    (createRippleEffect ev s).currentThemeIndex = s.currentThemeIndex := rfl

@[simp] theorem createRippleEffect_isAnimating (ev : ClickEvent) (s : AppState) :
    (createRippleEffect ev s).isAnimating = s.isAnimating := rfl

@[simp] theorem createRippleEffect_styleVars (ev : ClickEvent) (s : AppState) :
    styleVars (createRippleEffect ev s) = styleVars s := rfl

@[simp] theorem showNotification_currentThemeIndex (m : String) (s : AppState) :
    (showNotification m s).currentThemeIndex = s.currentThemeIndex := rfl

@[simp] theorem showNotification_isAnimating (m : String) (s : AppState) :
    (showNotification m s).isAnimating = s.isAnimating := rfl

@[simp] theorem showNotification_styleVars (m : String) (s : AppState) :
    styleVars (showNotification m s) = styleVars s := rfl

theorem cycleTheme_index_lt (s : AppState) :
    (cycleTheme s).currentThemeIndex < 5 := by
  rw [cycleTheme_currentThemeIndex]
  exact Nat.mod_lt _ (by norm_num)

theorem cycleTheme_iterate (n : Nat) (s : AppState) (h : s.currentThemeIndex < 5) :
    (cycleTheme^[n] s).currentThemeIndex = (s.currentThemeIndex + n) % 5 := by
  induction n generalizing s with
  | zero => simpa using (Nat.mod_eq_of_lt h).symm
  | succ n ih =>
    rw [Function.iterate_succ_apply, ih (cycleTheme s) (cycleTheme_index_lt s),
      cycleTheme_currentThemeIndex]
    omega

/-! ## Claim theorems -/

/-- Claim C1: for every N, performing N `cycleTheme` invocations starting
from `currentThemeIndex` 0 leaves the index equal to N mod 5, where 5 is
the length of the fixed theme palette. -/
theorem claim_C1_cycle_iterate (n : Nat) (s : AppState)
    (h : s.currentThemeIndex = 0) :
    (cycleTheme^[n] s).currentThemeIndex = n % 5 ∧ THEMES.length = 5 := by
  refine ⟨?_, rfl⟩
  rw [cycleTheme_iterate n s (by omega), h, Nat.zero_add]

/-- Witness for C1: seven cycles from the freshly initialized state land on
index 2. -/
theorem claim_C1_witness :
    initialState.currentThemeIndex = 0 ∧
    (cycleTheme^[7] initialState).currentThemeIndex = 7 % 5 := by
  exact ⟨rfl, (claim_C1_cycle_iterate 7 initialState rfl).1⟩

/-! ## The typewriter interval -/

@[simp] theorem twStart_twRunning (text : List Char) : (twStart text).twRunning = true := rfl

@[simp] theorem twStart_twComplete (text : List Char) : (twStart text).twComplete = false := rfl

@[simp] theorem twStart_titleFull (text : List Char) : (twStart text).titleFull = text := rfl

@[simp] theorem twStart_titleShown (text : List Char) : (twStart text).titleShown = [] := rfl

@[simp] theorem twStart_twIndex (text : List Char) : (twStart text).twIndex = 0 := rfl

theorem typewriterTick_fix (s : AppState) (h : s.twRunning = false) :
    typewriterTick s = s := by
  simp [typewriterTick, h]

theorem typewriterTick_iterate_fix (m : Nat) (s : AppState) (h : s.twRunning = false) :
    typewriterTick^[m] s = s := by
  induction m with
  | zero => rfl
  | succ m ih => rw [Function.iterate_succ_apply, typewriterTick_fix s h, ih]

theorem typewriterTick_iterate_lt (text : List Char) (k : Nat) (h : k < text.length) :
    typewriterTick^[k] (twStart text) =
      { twStart text with titleShown := text.take k, twIndex := k } := by
  induction k with
  | zero => rfl
  | succ k ih =>
    have hk : k < text.length := Nat.lt_of_succ_lt h
    rw [Function.iterate_succ_apply', ih hk]
    have hget : text[k]? = some text[k] := List.getElem?_eq_getElem hk
    have hcond : ¬ (text.length ≤ k + 1) := by omega
    simp [typewriterTick, jsCharAt, hget, hcond]

theorem typewriterTick_iterate_complete (text : List Char) (h : text ≠ []) :
    typewriterTick^[text.length] (twStart text) =
      { twStart text with titleShown := text, twIndex := text.length,
                          twRunning := false, twComplete := true } := by
  obtain ⟨L, hL⟩ : ∃ L, text.length = L + 1 :=
    ⟨text.length - 1, by have := List.length_pos.mpr h; omega⟩
  have hLlt : L < text.length := by omega
  have hget : text[L]? = some text[L] := List.getElem?_eq_getElem hLlt
  have ht : text.take (L + 1) = text := by rw [← hL, List.take_length]
  have hcond : text.length ≤ L + 1 := by omega
  rw [hL, Function.iterate_succ_apply', typewriterTick_iterate_lt text L hLlt]
  simp [typewriterTick, jsCharAt, hget, hcond, ht]

/-- Claim C2 (amended to title texts of length at least 1): for every
nonempty title text, each tick k < L leaves the interval live, the
completion marker absent and the revealed text equal to the first k
characters; after exactly L ticks the interval is cleared, the completion
marker is applied and the revealed text equals the original; and no tick
beyond the Lth changes anything. -/
theorem claim_C2_typewriter (text : List Char) (h : text ≠ []) :
    (∀ k, k < text.length →
        (typewriterTick^[k] (twStart text)).twRunning = true ∧
        (typewriterTick^[k] (twStart text)).twComplete = false ∧
        (typewriterTick^[k] (twStart text)).titleShown = text.take k) ∧
    (typewriterTick^[text.length] (twStart text)).twRunning = false ∧
    (typewriterTick^[text.length] (twStart text)).twComplete = true ∧
    (typewriterTick^[text.length] (twStart text)).titleShown = text ∧
    (∀ m, typewriterTick^[text.length + m] (twStart text)
        = typewriterTick^[text.length] (twStart text)) := by
  constructor
  · intro k hk
    rw [typewriterTick_iterate_lt text k hk]
    exact ⟨rfl, rfl, rfl⟩
  · rw [typewriterTick_iterate_complete text h]
    refine ⟨rfl, rfl, rfl, ?_⟩
    intro m
    rw [Nat.add_comm, Function.iterate_add_apply, typewriterTick_iterate_complete text h,
      typewriterTick_iterate_fix m _ rfl]

/-- Counterexample for C2 as stated: for the empty title text (L = 0) the
claim demands exactly 0 reveal steps and a final revealed text equal to the
original empty text; instead the interval is still live after 0 ticks,
performs one tick (JavaScript appends the string "undefined" for the
out-of-range character read `text[0]`), and only then stops — with the
revealed text "undefined", not the original empty text. -/
theorem claim_C2_counterexample :
    twDone [] 0 = false ∧ twDone [] 1 = true ∧
    (typewriterTick^[1] (twStart [])).titleShown = "undefined".toList ∧
    (typewriterTick^[1] (twStart [])).titleShown ≠ ([] : List Char) := by
  exact ⟨rfl, rfl, rfl, by decide⟩

/-- Witness for the amended C2: on the two-character text "Hi" the effect
reveals "H" after one tick without the completion marker, and after two
ticks shows "Hi" with the completion marker. -/
theorem claim_C2_witness :
    (['H', 'i'] : List Char) ≠ [] ∧
    (typewriterTick^[2] (twStart ['H', 'i'])).titleShown = ['H', 'i'] ∧
    (typewriterTick^[2] (twStart ['H', 'i'])).twComplete = true ∧
    (typewriterTick^[1] (twStart ['H', 'i'])).twComplete = false := by
  have h : (['H', 'i'] : List Char) ≠ [] := by decide
  have main := claim_C2_typewriter ['H', 'i'] h
  exact ⟨h, main.2.2.2.1, main.2.2.1, (main.1 1 (by norm_num)).2.1⟩

/-! ## Ripples, the re-entrancy guard and the Escape reset -/

@[simp] theorem cycleTheme_ripples (s : AppState) :
    (cycleTheme s).ripples = s.ripples := by
  simp [cycleTheme]

@[simp] theorem showNotification_ripples (m : String) (s : AppState) :
    (showNotification m s).ripples = s.ripples := rfl

@[simp] theorem accessibilityKeydown_ripples (ev : KeyEvent) (s : AppState) :
    (accessibilityKeydown ev s).ripples = s.ripples := by
  unfold accessibilityKeydown; split <;> rfl

/-- Claim C3: on an activation that passes the animating guard, a mouse
click (pointer coordinates present on the event) creates a ripple whose
inline box of side `size` sits at `(clientX - rect.left - size/2,
clientY - rect.top - size/2)` — i.e. is centered exactly at the pointer's
coordinates relative to the action element — while a keyboard (Space/Enter)
activation on the button goes through the synthesized event carrying no
pointer coordinates, so both computed inline coordinates are the fixed
non-numeric NaN (`none`): no activation-dependent position is written and
the ripple keeps its stylesheet default position. -/
theorem claim_C3_ripple_position (s : AppState) (ev : ClickEvent) (cx cy : Rat)
    (ha : s.isAnimating = false) (hx : ev.clientX = some cx) (hy : ev.clientY = some cy) :
    ((handleInteractiveClick ev s).ripples =
        s.ripples ++ [⟨max ev.rect.width ev.rect.height,
          some (cx - ev.rect.left - max ev.rect.width ev.rect.height / 2),
          some (cy - ev.rect.top - max ev.rect.width ev.rect.height / 2)⟩] ∧
      cx - ev.rect.left - max ev.rect.width ev.rect.height / 2
          + max ev.rect.width ev.rect.height / 2 = cx - ev.rect.left) ∧
    (∀ kev : KeyEvent, (kev.key = " " ∨ kev.key = "Enter") → kev.targetIsBtn = true →
      s.btnCached = true →
      (keydownDispatch kev s).ripples =
        s.ripples ++ [⟨max kev.btnRect.width kev.btnRect.height, none, none⟩]) := by
  constructor
  · constructor
    · simp [handleInteractiveClick, ha, createRippleEffect, jsSub, hx, hy]
    · ring
  · intro kev hkey htgt hbtn
    have hno : (handleInteractiveClick ⟨none, none, kev.btnRect⟩ s).ripples =
        s.ripples ++ [⟨max kev.btnRect.width kev.btnRect.height, none, none⟩] := by
      simp [handleInteractiveClick, ha, createRippleEffect, jsSub]
    rcases hkey with hk | hk <;>
      simp [keydownDispatch, handleKeydown, accessibilityKeydown, hk, htgt, hbtn, hno]

/-- Witness for C3: with the button rect at (10, 20) sized 100 by 100, a
click at viewport point (60, 30) yields a ripple with inline coordinates
(0, -40) — centered on the pointer — and an Enter activation yields a
ripple with both inline coordinates non-numeric. -/
theorem claim_C3_witness :
    (handleInteractiveClick ⟨some 60, some 30, ⟨10, 20, 100, 100⟩⟩ initialState).ripples
      = [⟨100, some 0, some (-40)⟩] ∧
    (keydownDispatch ⟨"Enter", true, ⟨10, 20, 100, 100⟩⟩ initialState).ripples
      = [⟨100, none, none⟩] := by
  have h := claim_C3_ripple_position initialState
    ⟨some 60, some 30, ⟨10, 20, 100, 100⟩⟩ 60 30 rfl rfl rfl
  constructor
  · have h1 := h.1.1
    norm_num [initialState] at h1
    exact h1
  · have h2 := h.2 ⟨"Enter", true, ⟨10, 20, 100, 100⟩⟩ (Or.inr rfl) rfl rfl
    norm_num [initialState] at h2
    exact h2

/-- Claim C4: when the action handler runs while the animating flag is
clear, it sets the flag; a second invocation arriving while the flag is
still set (within the cooldown window, before the release timeout) returns
the state entirely unchanged, so the two invocations together advance the
theme index exactly once. -/
theorem claim_C4_reentrancy_guard (ev1 ev2 : ClickEvent) (s : AppState)
    (h : s.isAnimating = false) :
    handleInteractiveClick ev2 (handleInteractiveClick ev1 s)
        = handleInteractiveClick ev1 s ∧
    (handleInteractiveClick ev1 s).isAnimating = true ∧
    (handleInteractiveClick ev2 (handleInteractiveClick ev1 s)).currentThemeIndex
        = (s.currentThemeIndex + 1) % 5 := by
  have hfl : (handleInteractiveClick ev1 s).isAnimating = true := by
    simp [handleInteractiveClick, h]
  have hid : handleInteractiveClick ev2 (handleInteractiveClick ev1 s)
      = handleInteractiveClick ev1 s := by
    generalize hX : handleInteractiveClick ev1 s = X at hfl
    simp [handleInteractiveClick, hfl]
  refine ⟨hid, hfl, ?_⟩
  rw [hid]
  simp [handleInteractiveClick, h]

/-- Witness for C4: two immediate clicks from the freshly initialized state
leave the index at 1, and the second click is the identity. -/
theorem claim_C4_witness :
    initialState.isAnimating = false ∧
    handleInteractiveClick ⟨some 5, some 5, ⟨0, 0, 10, 10⟩⟩
        (handleInteractiveClick ⟨some 5, some 5, ⟨0, 0, 10, 10⟩⟩ initialState)
      = handleInteractiveClick ⟨some 5, some 5, ⟨0, 0, 10, 10⟩⟩ initialState ∧
    (handleInteractiveClick ⟨some 5, some 5, ⟨0, 0, 10, 10⟩⟩
        (handleInteractiveClick ⟨some 5, some 5, ⟨0, 0, 10, 10⟩⟩ initialState)).currentThemeIndex
      = 1 := by
  have h := claim_C4_reentrancy_guard ⟨some 5, some 5, ⟨0, 0, 10, 10⟩⟩
    ⟨some 5, some 5, ⟨0, 0, 10, 10⟩⟩ initialState rfl
  exact ⟨rfl, h.1, by simpa using h.2.2⟩

/-- Claim C5: for every prior state, an Escape keydown sets the theme index
to 0 and (when the body element is cached, which holds in every loaded
document) writes the first palette theme's three color values. -/
theorem claim_C5_escape_reset (ev : KeyEvent) (s : AppState) (h : ev.key = "Escape") :
    (keydownDispatch ev s).currentThemeIndex = 0 ∧
    (s.bodyCached = true →
      styleVars (keydownDispatch ev s) = themeTriple (THEMES.getD 0 defaultTheme)) := by
  constructor
  · simp [keydownDispatch, handleKeydown, accessibilityKeydown, h]
  · intro hb
    simp [keydownDispatch, handleKeydown, accessibilityKeydown, applyTheme, h, hb,
      styleVars, themeTriple]

/-- Witness for C5: Escape from index 3 lands on index 0 with the first
palette theme's colors written. -/
theorem claim_C5_witness :
    (keydownDispatch ⟨"Escape", false, ⟨0, 0, 0, 0⟩⟩
        { initialState with currentThemeIndex := 3 }).currentThemeIndex = 0 ∧
    styleVars (keydownDispatch ⟨"Escape", false, ⟨0, 0, 0, 0⟩⟩
        { initialState with currentThemeIndex := 3 })
      = ("#667eea", "#764ba2", "#f093fb") := by
  have h := claim_C5_escape_reset ⟨"Escape", false, ⟨0, 0, 0, 0⟩⟩
    { initialState with currentThemeIndex := 3 } rfl
  exact ⟨h.1, by simpa [THEMES, defaultTheme, themeTriple] using h.2 rfl⟩

/-! ## The index invariant over the whole operation alphabet -/

@[simp] theorem accessibilityKeydown_currentThemeIndex (ev : KeyEvent) (s : AppState) :
    (accessibilityKeydown ev s).currentThemeIndex = s.currentThemeIndex := by
  unfold accessibilityKeydown; split <;> rfl

@[simp] theorem handleMouseMove_currentThemeIndex (cx cy vw vh : Rat) (s : AppState) :
    (handleMouseMove cx cy vw vh s).currentThemeIndex = s.currentThemeIndex := by
  unfold handleMouseMove; split <;> rfl

@[simp] theorem handleResize_currentThemeIndex (newPos : List (Rat × Rat)) (s : AppState) :
    (handleResize newPos s).currentThemeIndex = s.currentThemeIndex := by
  unfold handleResize updateParticles; split <;> rfl

@[simp] theorem typewriterTick_currentThemeIndex (s : AppState) :
    (typewriterTick s).currentThemeIndex = s.currentThemeIndex := by
  unfold typewriterTick
  split
  · dsimp only
    split <;> rfl
  · rfl

theorem handleInteractiveClick_index (ev : ClickEvent) (s : AppState) :
    (handleInteractiveClick ev s).currentThemeIndex
      = if s.isAnimating then s.currentThemeIndex else (s.currentThemeIndex + 1) % 5 := by
  by_cases h : s.isAnimating = true <;> simp [handleInteractiveClick, h]

theorem step_currentThemeIndex (op : Op) (s : AppState) :
    (step op s).currentThemeIndex = s.currentThemeIndex ∨
    (step op s).currentThemeIndex = (s.currentThemeIndex + 1) % 5 ∨
    (step op s).currentThemeIndex = 0 := by
  cases op with
  | click ev =>
    rw [show step (Op.click ev) s = handleInteractiveClick ev s from rfl,
      handleInteractiveClick_index]
    split
    · exact Or.inl rfl
    · exact Or.inr (Or.inl rfl)
  | keydown ev =>
    rw [show step (Op.keydown ev) s = keydownDispatch ev s from rfl]
    unfold keydownDispatch
    rw [accessibilityKeydown_currentThemeIndex]
    unfold handleKeydown
    split_ifs with h1 h2 h3
    · rw [handleInteractiveClick_index]
      split
      · exact Or.inl rfl
      · exact Or.inr (Or.inl rfl)
    · exact Or.inl rfl
    · exact Or.inr (Or.inr (by simp))
    · exact Or.inl rfl
  | colorTick =>
    rw [show step Op.colorTick s = colorCycleTick s from rfl]
    unfold colorCycleTick
    split_ifs
    · exact Or.inr (Or.inl (by simp))
    · exact Or.inl rfl
  | mousedown => exact Or.inl rfl
  | animTimeoutEnd => exact Or.inl rfl
  | buttonScaleEnd => exact Or.inl rfl
  | rippleExpire => exact Or.inl rfl
  | notifExpire => exact Or.inl rfl
  | mousemoveFire cx cy vw vh => exact Or.inl (by simp [step])
  | resizeFire newPos => exact Or.inl (by simp [step])
  | visibility hidden => exact Or.inl rfl
  | twTick => exact Or.inl (by simp [step])
  | publicCycle => exact Or.inr (Or.inl (by simp [step]))
  | publicApply t => exact Or.inl (by simp [step, publicApplyTheme])
  | publicNotify m => exact Or.inl rfl

theorem step_index_lt (op : Op) (s : AppState) (h : s.currentThemeIndex < 5) :
    (step op s).currentThemeIndex < 5 := by
  rcases step_currentThemeIndex op s with h1 | h1 | h1 <;> rw [h1] <;> omega

/-- Claim C6: the theme index stays an integer in [0, 5): starting from
index 0 (the initial value), running any sequence of operations of the
controller's alphabet — theme cycles, color-timer ticks, clicks, keydowns
(including the Escape reset), and all the non-theme operations — keeps the
index below the palette length. -/
theorem claim_C6_index_invariant (ops : List Op) (s : AppState)
    (h : s.currentThemeIndex = 0) :
    (run ops s).currentThemeIndex < 5 := by
  have key : ∀ (l : List Op) (t : AppState), t.currentThemeIndex < 5 →
      (run l t).currentThemeIndex < 5 := by
    intro l
    induction l with
    | nil => intro t ht; exact ht
    | cons op rest ih => intro t ht; exact ih (step op t) (step_index_lt op t ht)
  exact key ops s (by omega)

/-- Witness for C6: a concrete mixed run from the initialized state keeps
the index in range. -/
theorem claim_C6_witness :
    initialState.currentThemeIndex = 0 ∧
    (run [Op.publicCycle, Op.colorTick,
          Op.keydown ⟨"Escape", false, ⟨0, 0, 0, 0⟩⟩,
          Op.click ⟨some 5, some 5, ⟨0, 0, 10, 10⟩⟩, Op.twTick]
        initialState).currentThemeIndex < 5 := by
  exact ⟨rfl,
    claim_C6_index_invariant [Op.publicCycle, Op.colorTick,
      Op.keydown ⟨"Escape", false, ⟨0, 0, 0, 0⟩⟩,
      Op.click ⟨some 5, some 5, ⟨0, 0, 10, 10⟩⟩, Op.twTick] initialState rfl⟩

/-! ## Debounce -/

theorem debounceBurst_append_single {α : Type} (as0 : List α) (a : α)
    (s : DebounceState α) :
    debounceBurst (as0 ++ [a]) s = { pending := some a, fired := s.fired } := by
  induction as0 generalizing s with
  | nil => rfl
  | cons x xs ih => exact ih (debounceCall x s)

/-- Claim C7: for a burst of calls to a debounced handler in which each call
arrives before the previous pending delay elapses, no invocation of the
wrapped function happens during the burst (every earlier pending invocation,
including one pending from before the burst, is cancelled by the next
call's clearTimeout), and when the final delay elapses exactly one
invocation occurs, carrying the arguments of the last call of the burst. -/
theorem claim_C7_debounce (α : Type) (as0 : List α) (a : α) (s : DebounceState α) :
    (debounceBurst (as0 ++ [a]) s).fired = s.fired ∧
    debounceElapse (debounceBurst (as0 ++ [a]) s)
      = { pending := none, fired := s.fired ++ [a] } := by
  rw [debounceBurst_append_single]
  exact ⟨rfl, rfl⟩

/-! ## Initialization failure -/

/-- Claim C8: initialization logs a caught error exactly when the container
or title element cannot be located, and on that failure no event listener is
registered, no entrance animation or typewriter is started, the periodic
color cycle is not created, and no particles are created. -/
theorem claim_C8_init_failure (env : Env) :
    ((init env).errorLogged = true ↔ (env.container = false ∨ env.title = false)) ∧
    ((init env).errorLogged = true →
      (init env).clickListener = false ∧ (init env).keydownListener = false ∧
      (init env).resizeListener = false ∧ (init env).mousemoveListener = false ∧
      (init env).visibilityListener = false ∧ (init env).entranceStarted = false ∧
      (init env).typewriterScheduled = false ∧ (init env).colorCycleStarted = false ∧
      (init env).particlesCreated = 0 ∧ (init env).accessibilitySetup = false) := by
  obtain ⟨c, t, st, b, p⟩ := env
  cases c <;> cases t <;> simp [init, cacheOk]

/-- Witness for C8: with the container missing the error is logged, and no
listener, color cycle or particle is set up. -/
theorem claim_C8_witness :
    (init ⟨false, true, true, true, true⟩).errorLogged = true ∧
    (init ⟨false, true, true, true, true⟩).keydownListener = false ∧
    (init ⟨false, true, true, true, true⟩).colorCycleStarted = false ∧
    (init ⟨false, true, true, true, true⟩).particlesCreated = 0 := by
  have h := claim_C8_init_failure ⟨false, true, true, true, true⟩
  have he : (init ⟨false, true, true, true, true⟩).errorLogged = true :=
    h.1.mpr (Or.inl rfl)
  have himp := h.2 he
  exact ⟨he, himp.2.1, himp.2.2.2.2.2.2.2.1, himp.2.2.2.2.2.2.2.2.1⟩

/-! ## The style variables are written only through applyTheme -/

@[simp] theorem accessibilityKeydown_styleVars (ev : KeyEvent) (s : AppState) :
    styleVars (accessibilityKeydown ev s) = styleVars s := by
  unfold accessibilityKeydown; split <;> rfl

@[simp] theorem typewriterTick_styleVars (s : AppState) :
    styleVars (typewriterTick s) = styleVars s := by
  unfold typewriterTick
  split
  · dsimp only
    split <;> rfl
  · rfl

@[simp] theorem handleMouseMove_styleVars (cx cy vw vh : Rat) (s : AppState) :
    styleVars (handleMouseMove cx cy vw vh s) = styleVars s := by
  unfold handleMouseMove; split <;> rfl

@[simp] theorem handleResize_styleVars (newPos : List (Rat × Rat)) (s : AppState) :
    styleVars (handleResize newPos s) = styleVars s := by
  unfold handleResize updateParticles; split <;> rfl

theorem cycleTheme_styleVars (s : AppState) (hb : s.bodyCached = true) :
    styleVars (cycleTheme s) = themeTriple (nextTheme s) := by
  unfold cycleTheme nextTheme
  exact applyTheme_styleVars_of_bodyCached _ _ hb

/-- Claim C9: `applyTheme` is the only writer of the three page-global color
style variables. Formally: an operation of the alphabet changes the style
variables only when it reaches an `applyTheme` call (the passed theme is
`themeAppliedBy`, read off the call sites), and in that case the new
variable values are exactly the three values of the theme triple passed;
every operation with no `applyTheme` call leaves the variables unchanged. -/
theorem claim_C9_applyTheme_unique_writer (op : Op) (s : AppState)
    (hb : s.bodyCached = true) :
    (themeAppliedBy op s = none → styleVars (step op s) = styleVars s) ∧
    (∀ t, themeAppliedBy op s = some t → styleVars (step op s) = themeTriple t) := by
  cases op with
  | click ev =>
    by_cases h : s.isAnimating = true
    · refine ⟨fun _ => ?_, fun t ht => ?_⟩
      · simp [step, handleInteractiveClick, h]
      · simp [themeAppliedBy, h] at ht
    · refine ⟨fun h0 => ?_, fun t ht => ?_⟩
      · simp [themeAppliedBy, h] at h0
      · have hA : s.isAnimating = false := by simpa using h
        simp [themeAppliedBy, hA] at ht
        have hred : handleInteractiveClick ev s
            = showNotification "Theme changed! ✨" (createRippleEffect ev
                (cycleTheme { s with isAnimating := true, buttonScaledDown := true })) := by
          simp [handleInteractiveClick, hA]
        calc styleVars (step (Op.click ev) s)
            = themeTriple (nextTheme { s with isAnimating := true, buttonScaledDown := true }) := by
              rw [show step (Op.click ev) s = handleInteractiveClick ev s from rfl, hred,
                showNotification_styleVars, createRippleEffect_styleVars]
              exact cycleTheme_styleVars _ hb
          _ = themeTriple (nextTheme s) := rfl
          _ = themeTriple t := by rw [ht]
  | keydown ev =>
    rw [show step (Op.keydown ev) s = keydownDispatch ev s from rfl]
    unfold keydownDispatch
    by_cases h1 : ev.key = " " ∨ ev.key = "Enter"
    · by_cases h2 : (ev.targetIsBtn && s.btnCached) = true
      · by_cases h3 : s.isAnimating = true
        · refine ⟨fun _ => ?_, fun t ht => ?_⟩
          · simp [handleKeydown, h1, h2, handleInteractiveClick, h3]
          · simp [themeAppliedBy, h1, h2, h3] at ht
        · refine ⟨fun h0 => ?_, fun t ht => ?_⟩
          · simp [themeAppliedBy, h1, h2, h3] at h0
          · have hA : s.isAnimating = false := by simpa using h3
            simp [themeAppliedBy, h1, h2, hA] at ht
            have hred : handleKeydown ev s
                = showNotification "Theme changed! ✨"
                    (createRippleEffect ⟨none, none, ev.btnRect⟩
                      (cycleTheme { s with isAnimating := true, buttonScaledDown := true })) := by
              simp [handleKeydown, h1, h2, handleInteractiveClick, hA]
            calc styleVars (accessibilityKeydown ev (handleKeydown ev s))
                = styleVars (handleKeydown ev s) := accessibilityKeydown_styleVars ev _
              _ = themeTriple (nextTheme
                    { s with isAnimating := true, buttonScaledDown := true }) := by
                  rw [hred, showNotification_styleVars, createRippleEffect_styleVars]
                  exact cycleTheme_styleVars _ hb
              _ = themeTriple (nextTheme s) := rfl
              _ = themeTriple t := by rw [ht]
      · refine ⟨fun _ => ?_, fun t ht => ?_⟩
        · simp [handleKeydown, h1, h2]
        · simp [themeAppliedBy, h1, h2] at ht
    · by_cases h4 : ev.key = "Escape"
      · refine ⟨fun h0 => ?_, fun t ht => ?_⟩
        · simp [themeAppliedBy, h1, h4] at h0
        · simp [themeAppliedBy, h1, h4] at ht
          have hred : handleKeydown ev s
              = applyTheme (THEMES.getD 0 defaultTheme) { s with currentThemeIndex := 0 } := by
            simp [handleKeydown, h1, h4]
          calc styleVars (accessibilityKeydown ev (handleKeydown ev s))
              = styleVars (handleKeydown ev s) := accessibilityKeydown_styleVars ev _
            _ = themeTriple (THEMES.getD 0 defaultTheme) := by
                rw [hred]
                exact applyTheme_styleVars_of_bodyCached _ _ hb
            _ = themeTriple t := congrArg themeTriple ht
      · refine ⟨fun _ => ?_, fun t ht => ?_⟩
        · simp [handleKeydown, h1, h4]
        · simp [themeAppliedBy, h1, h4] at ht
  | colorTick =>
    rw [show step Op.colorTick s = colorCycleTick s from rfl]
    by_cases h : (!s.docHidden && !s.isAnimating) = true
    · refine ⟨fun h0 => ?_, fun t ht => ?_⟩
      · simp [themeAppliedBy, h] at h0
      · simp only [themeAppliedBy, h, if_true, Option.some.injEq] at ht
        unfold colorCycleTick
        rw [if_pos h, cycleTheme_styleVars _ hb, ← ht]
    · refine ⟨fun _ => ?_, fun t ht => ?_⟩
      · simp [colorCycleTick, h]
      · simp [themeAppliedBy, h] at ht
  | mousedown => exact ⟨fun _ => rfl, fun t ht => by simp [themeAppliedBy] at ht⟩
  | animTimeoutEnd => exact ⟨fun _ => rfl, fun t ht => by simp [themeAppliedBy] at ht⟩
  | buttonScaleEnd => exact ⟨fun _ => rfl, fun t ht => by simp [themeAppliedBy] at ht⟩
  | rippleExpire => exact ⟨fun _ => rfl, fun t ht => by simp [themeAppliedBy] at ht⟩
  | notifExpire => exact ⟨fun _ => rfl, fun t ht => by simp [themeAppliedBy] at ht⟩
  | mousemoveFire cx cy vw vh =>
    exact ⟨fun _ => by simp [step], fun t ht => by simp [themeAppliedBy] at ht⟩
  | resizeFire newPos =>
    exact ⟨fun _ => by simp [step], fun t ht => by simp [themeAppliedBy] at ht⟩
  | visibility hidden => exact ⟨fun _ => rfl, fun t ht => by simp [themeAppliedBy] at ht⟩
  | twTick =>
    exact ⟨fun _ => by simp [step], fun t ht => by simp [themeAppliedBy] at ht⟩
  | publicCycle =>
    refine ⟨fun h0 => ?_, fun t ht => ?_⟩
    · simp [themeAppliedBy] at h0
    · simp only [themeAppliedBy, Option.some.injEq] at ht
      rw [show step Op.publicCycle s = cycleTheme s from rfl,
        cycleTheme_styleVars _ hb, ← ht]
  | publicApply t0 =>
    refine ⟨fun h0 => ?_, fun t ht => ?_⟩
    · simp [themeAppliedBy] at h0
    · simp only [themeAppliedBy, Option.some.injEq] at ht
      rw [show step (Op.publicApply t0) s = applyTheme t0 s from rfl,
        applyTheme_styleVars_of_bodyCached _ _ hb, ← ht]
  | publicNotify m => exact ⟨fun _ => rfl, fun t ht => by simp [themeAppliedBy] at ht⟩

/-- Witness for C9: a mousedown leaves the variables unchanged, and a public
applyTheme with an arbitrary triple writes exactly that triple. -/
theorem claim_C9_witness :
    styleVars (step Op.mousedown initialState) = styleVars initialState ∧
    styleVars (step (Op.publicApply ⟨"a", "b", "c"⟩) initialState) = ("a", "b", "c") := by
  have h1 := (claim_C9_applyTheme_unique_writer Op.mousedown initialState rfl).1 rfl
  have h2 := (claim_C9_applyTheme_unique_writer (Op.publicApply ⟨"a", "b", "c"⟩)
    initialState rfl).2 ⟨"a", "b", "c"⟩ rfl
  exact ⟨h1, by simpa [themeTriple] using h2⟩

/-- Claim C10: the public `HelloNazApp.applyTheme` writes the given triple
into the style variables but leaves the theme index and the animating flag
unchanged; a subsequent cycle advances from the pre-existing index; and
there are calls after which the displayed colors differ from the palette
entry at the current index. -/
theorem claim_C10_public_applyTheme_frame (t : Theme) (s : AppState) :
    (publicApplyTheme t s).currentThemeIndex = s.currentThemeIndex ∧
    (publicApplyTheme t s).isAnimating = s.isAnimating ∧
    (s.bodyCached = true → styleVars (publicApplyTheme t s) = themeTriple t) ∧
    (cycleTheme (publicApplyTheme t s)).currentThemeIndex = (s.currentThemeIndex + 1) % 5 ∧
    (∃ (u : Theme) (r : AppState), r.bodyCached = true ∧
      styleVars (publicApplyTheme u r)
        ≠ themeTriple (THEMES.getD (publicApplyTheme u r).currentThemeIndex defaultTheme)) := by
  refine ⟨by simp [publicApplyTheme], by simp [publicApplyTheme],
    fun hb => applyTheme_styleVars_of_bodyCached t s hb, by simp [publicApplyTheme], ?_⟩
  refine ⟨⟨"a", "b", "c"⟩, initialState, rfl, ?_⟩
  decide

/-- Witness for C10: applying an off-palette triple at index 4 keeps index 4
and the flag, writes that triple, and the next cycle wraps to 0. -/
theorem claim_C10_witness :
    (publicApplyTheme ⟨"x", "y", "z"⟩
        { initialState with currentThemeIndex := 4 }).currentThemeIndex = 4 ∧
    styleVars (publicApplyTheme ⟨"x", "y", "z"⟩
        { initialState with currentThemeIndex := 4 }) = ("x", "y", "z") ∧
    (cycleTheme (publicApplyTheme ⟨"x", "y", "z"⟩
        { initialState with currentThemeIndex := 4 })).currentThemeIndex = 0 := by
  have h := claim_C10_public_applyTheme_frame ⟨"x", "y", "z"⟩
    { initialState with currentThemeIndex := 4 }
  exact ⟨h.1, by simpa [themeTriple] using h.2.2.1 rfl, by simpa using h.2.2.2.1⟩

end HelloNaz
